import Mathlib

/-!
Shallow embedding of `src/lib/streamlit/elements/modal.py` (class `ModalMixin`).

The file under verification is glue code: its five methods call out to
external collaborators (the `streamlit.elements.form` helper module, the
`DeltaGenerator` tree-builder, the script-run context from
`streamlit.runtime.scriptrunner`, the protobuf `Block` message from
`streamlit.proto.Block_pb2`, and `create_update_open_modal_id_modal_event`
from `streamlit.runtime.app_session`).  None of those collaborators' code is
part of the slice, so they are modelled abstractly: an `Env` record supplies
their observable behaviour (what `form.build_form_id` returns for a key,
what `form.current_form_id` returns, what `DeltaGenerator._button` returns,
and whether `get_script_run_ctx()` returns a context), and every method is
embedded as a pure function that returns its Python return value together
with the exact ordered list of external interactions it performs
(`List ExtCall`).  The trace makes frame conditions statable: an effect the
method does not perform is an entry the trace does not contain.
-/

/-- Opaque stand-in for an arbitrary Python object (a callback, an `args`
tuple, a `kwargs` dict).  The embedding only ever forwards such values, so
an abstract carrier with decidable equality suffices. -/
structure PyObj where
  id : Nat
deriving DecidableEq, Repr

/-- Modelled from the spec: the `modal` sub-message of the protobuf
`Block` message (`streamlit.proto.Block_pb2`, whose generated code is not
part of the slice).  Per the spec the block descriptor carries the form id
and the clear-on-submit flag; protobuf fields default to the empty string
and `False`. -/
structure BlockModal where
  form_id : String := ""
  clear_on_submit : Bool := false
deriving DecidableEq, Repr

/-- Modelled from the spec: the `oneof type` alternatives of the protobuf
`Block` message.  `unset` is the protobuf default (no alternative chosen);
`modal` is the alternative this file populates; `otherType` stands for every
other alternative (vertical, horizontal, form, ...), which this file never
constructs. -/
inductive BlockType where
  | unset
  | modal (m : BlockModal)
  | otherType (tag : Nat)
deriving DecidableEq, Repr

/-- Modelled from the spec: the protobuf `Block` message.  Besides the
`oneof type` it has scalar fields (represented by `allow_empty`) whose
protobuf default is `false`.  `Block()` constructs the all-default
message. -/
structure Block where
  type : BlockType := BlockType.unset
  allow_empty : Bool := false
deriving DecidableEq, Repr

/-- Protobuf sub-message read access: `block.modal` yields the stored modal
sub-message, or a default-valued one when the `modal` alternative is not
set. -/
def Block.modal : Block → BlockModal
  | { type := BlockType.modal m, .. } => m
  | _ => {}

/-- Modelled from the spec: the control events produced by
`create_update_open_modal_id_modal_event` (defined in
`streamlit.runtime.app_session`, not part of the slice).  The spec says the
event "tells the front end which modal should be open", so its observable
content is the `open_modal_id` it carries. -/
inductive Event where
  | updateOpenModalId (open_modal_id : String)
deriving DecidableEq, Repr

/-- Modelled from the spec: `create_update_open_modal_id_modal_event`
builds the control event carrying the given `open_modal_id`. -/
def create_update_open_modal_id_modal_event (open_modal_id : String) : Event :=
  Event.updateOpenModalId open_modal_id

/-- Modelled from the spec: `form.FormData` (from `streamlit.elements.form`,
not part of the slice) — the record attached to a block's `DeltaGenerator`
holding the form's id. -/
structure FormData where
  form_id : String
deriving DecidableEq, Repr

/-- The keyword arguments `_modal_form_submit_button` passes to
`self.dg._button`.  `ctx_present` records whether the forwarded `ctx`
argument is an actual context or `None`. -/
structure ButtonCall where
  label : String
  key : String
  help : Option String
  is_form_submitter : Bool
  on_click : Option PyObj
  args : Option PyObj
  kwargs : Option PyObj
  type : String
  disabled : Bool
  use_container_width : Bool
  ctx_present : Bool
deriving DecidableEq, Repr

/-- One interaction with an external collaborator, in program order:
calls into the `form` helper module, into the `DeltaGenerator`
tree-builder, and into the script-run context machinery. -/
inductive ExtCall where
  | formBuildFormId (key : String) (result : String)
  | formCurrentFormId (result : String)
  | dgBlock (proto : Block)
  | dgFormDataSet (fd : FormData)
  | dgButton (call : ButtonCall) (result : Bool)
  | getScriptRunCtx (present : Bool)
  | ctxEnqueue (e : Event)
deriving DecidableEq, Repr

/-- Interaction with the `form` helper module. -/
def ExtCall.isFormCall : ExtCall → Bool
  | ExtCall.formBuildFormId _ _ => true
  | ExtCall.formCurrentFormId _ => true
  | _ => false

/-- Interaction with the `DeltaGenerator` tree-builder. -/
def ExtCall.isDgCall : ExtCall → Bool
  | ExtCall.dgBlock _ => true
  | ExtCall.dgFormDataSet _ => true
  | ExtCall.dgButton _ _ => true
  | _ => false

/-- Interaction with the script-run context machinery
(`get_script_run_ctx` / `ctx.enqueue`). -/
def ExtCall.isCtxCall : ExtCall → Bool
  | ExtCall.getScriptRunCtx _ => true
  | ExtCall.ctxEnqueue _ => true
  | _ => false

/-- The events enqueued on the script-run context along a trace, in
order. -/
def enqueuedEvents (tr : List ExtCall) : List Event :=
  tr.filterMap fun c =>
    match c with
    | ExtCall.ctxEnqueue e => some e
    | _ => none

/-- The block protos handed to `DeltaGenerator._block` along a trace. -/
def blockProtos (tr : List ExtCall) : List Block :=
  tr.filterMap fun c =>
    match c with
    | ExtCall.dgBlock p => some p
    | _ => none

/-- The button registrations handed to `DeltaGenerator._button` along a
trace. -/
def buttonRegistrations (tr : List ExtCall) : List ButtonCall :=
  tr.filterMap fun c =>
    match c with
    | ExtCall.dgButton call _ => some call
    | _ => none

/-- The observable behaviour of the external collaborators during one call:
what `form.build_form_id(self.dg, key)` returns for each key, what
`form.current_form_id(self.dg)` returns, what `self.dg._button(...)`
returns for a given registration, and whether `get_script_run_ctx()`
returns a context. -/
structure Env where
  build_form_id : String → String
  current_form_id : String
  button_result : ButtonCall → Bool
  ctx_present : Bool

/-- Modelled from the spec: a block `DeltaGenerator` as returned by
`self.dg._block(proto)` — the tree-builder node for the new block, on which
`modal.py` then sets the `_form_data` attribute. -/
structure BlockDG where
  proto : Block
  form_data : Option FormData
deriving DecidableEq, Repr

/-- The Python exception raised on an invalid `type` argument. -/
inductive StreamlitAPIException where
  | mk (message : String)
deriving DecidableEq, Repr

namespace ModalMixin

/-- `ModalMixin.build_modal_proto` (modal.py lines 98-103): build a fresh
`Block`, set `modal.form_id` and `modal.clear_on_submit`, return it. -/
def build_modal_proto (form_id : String) (clear_on_submit : Bool) : Block :=
  { type := BlockType.modal { form_id := form_id, clear_on_submit := clear_on_submit },
    allow_empty := false }

/-- `ModalMixin.experimental_modal_form` (modal.py lines 31-96): compute
`form_id = form.build_form_id(self.dg, key)`, create the block via
`self.dg._block(build_modal_proto(form_id, clear_on_submit))`, attach
`form.FormData(form_id)` to the new block `DeltaGenerator`, return it.
Result: the returned block `DeltaGenerator`, paired with the trace of
external interactions. -/
def experimental_modal_form (env : Env) (key : String)
    (clear_on_submit : Bool := false) : BlockDG × List ExtCall :=
  let form_id := env.build_form_id key
  let proto := build_modal_proto form_id clear_on_submit
  let block_dg : BlockDG := { proto := proto, form_data := some { form_id := form_id } }
  (block_dg,
    [ExtCall.formBuildFormId key form_id,
     ExtCall.dgBlock proto,
     ExtCall.dgFormDataSet { form_id := form_id }])

/-- `ModalMixin._modal_form_submit_button` (modal.py lines 177-204): read
`form_id = form.current_form_id(self.dg)`, build the widget key
`f"FormSubmitter:{form_id}-{label}"`, delegate to `self.dg._button` with
`is_form_submitter=True` and the caller's arguments forwarded. -/
def _modal_form_submit_button (env : Env) (label : String := "Submit")
    (help : Option String := none) (on_click : Option PyObj := none)
    (args : Option PyObj := none) (kwargs : Option PyObj := none)
    (type : String := "secondary") (disabled : Bool := false)
    (use_container_width : Bool := false) (ctx_present : Bool := false) :
    Bool × List ExtCall :=
  let form_id := env.current_form_id
  let submit_button_key := "FormSubmitter:" ++ form_id ++ "-" ++ label
  let call : ButtonCall :=
    { label := label, key := submit_button_key, help := help,
      is_form_submitter := true, on_click := on_click, args := args,
      kwargs := kwargs, type := type, disabled := disabled,
      use_container_width := use_container_width, ctx_present := ctx_present }
  (env.button_result call,
    [ExtCall.formCurrentFormId form_id,
     ExtCall.dgButton call (env.button_result call)])

/-- The exception message built at modal.py lines 160-163. -/
def invalidTypeMessage (type : String) : String :=
  "The type argument to st.button must be \"primary\" or \"secondary\". \n" ++
    "The argument passed was \"" ++ type ++ "\"."

/-- `ModalMixin.experimental_modal_form_submit_button` (modal.py lines
105-175): fetch the script-run context, raise `StreamlitAPIException` when
`type` is not in `["primary", "secondary"]`, otherwise delegate to
`_modal_form_submit_button` with the context and all arguments forwarded. -/
def experimental_modal_form_submit_button (env : Env) (label : String := "Submit")
    (help : Option String := none) (on_click : Option PyObj := none)
    (args : Option PyObj := none) (kwargs : Option PyObj := none)
    (type : String := "secondary") (disabled : Bool := false)
    (use_container_width : Bool := false) :
    Except StreamlitAPIException Bool × List ExtCall :=
  let pre : List ExtCall := [ExtCall.getScriptRunCtx env.ctx_present]
  if type = "primary" ∨ type = "secondary" then
    let r := _modal_form_submit_button env label help on_click args kwargs
      type disabled use_container_width env.ctx_present
    (Except.ok r.1, pre ++ r.2)
  else
    (Except.error (StreamlitAPIException.mk (invalidTypeMessage type)), pre)

/-- `ModalMixin.open_modal` (modal.py lines 206-214): fetch the script-run
context; when it exists, enqueue
`create_update_open_modal_id_modal_event(open_modal_id=form.current_form_id(self.dg))`;
otherwise do nothing. -/
def open_modal (env : Env) : Unit × List ExtCall :=
  if env.ctx_present then
    ((),
      [ExtCall.getScriptRunCtx true,
       ExtCall.formCurrentFormId env.current_form_id,
       ExtCall.ctxEnqueue
         (create_update_open_modal_id_modal_event env.current_form_id)])
  else
    ((), [ExtCall.getScriptRunCtx false])

/-- `ModalMixin.close_modal` (modal.py lines 216-221): fetch the script-run
context; when it exists, enqueue
`create_update_open_modal_id_modal_event(open_modal_id="")`; otherwise do
nothing. -/
def close_modal (env : Env) : Unit × List ExtCall :=
  if env.ctx_present then
    ((),
      [ExtCall.getScriptRunCtx true,
       ExtCall.ctxEnqueue (create_update_open_modal_id_modal_event "")])
  else
    ((), [ExtCall.getScriptRunCtx false])

end ModalMixin

/-- A concrete collaborator environment with a script-run context, used by
witnesses. -/
def envA : Env :=
  { build_form_id := fun k => "form-" ++ k,
    current_form_id := "form-xyz",
    button_result := fun _ => true,
    ctx_present := true }

/-- A concrete collaborator environment where `get_script_run_ctx()`
returns `None`. -/
def envNoCtx : Env :=
  { build_form_id := fun k => "form-" ++ k,
    current_form_id := "form-xyz",
    button_result := fun _ => true,
    ctx_present := false }

/-! ## Claim theorems -/

/-- C1 (counterexample): the claim "for every call, `open_modal` enqueues
exactly one control event" fails when `get_script_run_ctx()` returns
`None`: at the concrete environment `envNoCtx` the call enqueues no event
at all. -/
theorem open_modal_no_ctx_counterexample :
    enqueuedEvents (ModalMixin.open_modal envNoCtx).2 = [] ∧
    (enqueuedEvents (ModalMixin.open_modal envNoCtx).2).length ≠ 1 := by
  constructor
  · rfl
  · decide

/-- C1 (amended): whenever `get_script_run_ctx()` returns a context,
`open_modal` enqueues on it exactly one control event, built by
`create_update_open_modal_id_modal_event`, whose `open_modal_id` equals
the current form id of the mixin's `DeltaGenerator`
(`form.current_form_id(self.dg)`), and enqueues nothing else. -/
theorem open_modal_enqueues_current_form_id (env : Env)
    (h : env.ctx_present = true) :
    enqueuedEvents (ModalMixin.open_modal env).2 =
      [create_update_open_modal_id_modal_event env.current_form_id] := by
  simp [ModalMixin.open_modal, enqueuedEvents, h]

/-- C1 (witness): the amended theorem applied at the concrete environment
`envA`, whose script-run context exists. -/
theorem open_modal_enqueues_current_form_id_witness :
    enqueuedEvents (ModalMixin.open_modal envA).2 =
      [create_update_open_modal_id_modal_event "form-xyz"] :=
  open_modal_enqueues_current_form_id envA rfl

/-- C2: `build_modal_proto form_id clear_on_submit` returns a `Block`
whose `modal.form_id` is `form_id`, whose `modal.clear_on_submit` is
`clear_on_submit`, and whose every other field keeps the default of a
freshly constructed `Block`; and `experimental_modal_form` builds its
block proto by passing the form id obtained from `form.build_form_id`
into `build_modal_proto` unchanged. -/
theorem build_modal_proto_correct (form_id : String) (clear_on_submit : Bool) :
    (ModalMixin.build_modal_proto form_id clear_on_submit).modal.form_id = form_id ∧
    (ModalMixin.build_modal_proto form_id clear_on_submit).modal.clear_on_submit
      = clear_on_submit ∧
    (ModalMixin.build_modal_proto form_id clear_on_submit).allow_empty
      = ({} : Block).allow_empty ∧
    ∀ (env : Env) (key : String) (c : Bool),
      (ModalMixin.experimental_modal_form env key c).1.proto =
        ModalMixin.build_modal_proto (env.build_form_id key) c :=
  ⟨rfl, rfl, rfl, fun _ _ _ => rfl⟩

/-- C3 (counterexample): the claim "for every call, `close_modal` enqueues
exactly one control event" fails when `get_script_run_ctx()` returns
`None`: at the concrete environment `envNoCtx` the call enqueues no event
at all. -/
theorem close_modal_no_ctx_counterexample :
    enqueuedEvents (ModalMixin.close_modal envNoCtx).2 = [] ∧
    (enqueuedEvents (ModalMixin.close_modal envNoCtx).2).length ≠ 1 := by
  constructor
  · rfl
  · decide

/-- C3 (amended): whenever `get_script_run_ctx()` returns a context,
`close_modal` enqueues on it exactly one control event whose
`open_modal_id` is the empty string, independent of which
`DeltaGenerator` the mixin is bound to (the enqueued list is the same
constant for every environment), and enqueues nothing else. -/
theorem close_modal_enqueues_empty_id (env : Env)
    (h : env.ctx_present = true) :
    enqueuedEvents (ModalMixin.close_modal env).2 =
      [create_update_open_modal_id_modal_event ""] := by
  simp [ModalMixin.close_modal, enqueuedEvents, h]

/-- C3 (witness): the amended theorem applied at the concrete environment
`envA`, whose script-run context exists. -/
theorem close_modal_enqueues_empty_id_witness :
    enqueuedEvents (ModalMixin.close_modal envA).2 =
      [create_update_open_modal_id_modal_event ""] :=
  close_modal_enqueues_empty_id envA rfl

/-- C4: for every valid `type` argument,
`experimental_modal_form_submit_button` delegates entirely to
`self.dg._button`: it returns exactly the boolean `_button` returns, the
single registration it hands to `_button` has `is_form_submitter = true`
and carries the caller's `label`, `help`, `on_click`, `args`, `kwargs`,
`type`, `disabled` and `use_container_width` unchanged, and no other
button registration happens. -/
theorem experimental_modal_form_submit_button_delegates (env : Env)
    (label : String) (help : Option String)
    (on_click args kwargs : Option PyObj) (type : String)
    (disabled use_container_width : Bool)
    (h : type = "primary" ∨ type = "secondary") :
    ∃ call : ButtonCall,
      call.label = label ∧ call.help = help ∧ call.on_click = on_click ∧
      call.args = args ∧ call.kwargs = kwargs ∧ call.type = type ∧
      call.disabled = disabled ∧
      call.use_container_width = use_container_width ∧
      call.is_form_submitter = true ∧
      (ModalMixin.experimental_modal_form_submit_button env label help
          on_click args kwargs type disabled use_container_width).1
        = Except.ok (env.button_result call) ∧
      buttonRegistrations
          (ModalMixin.experimental_modal_form_submit_button env label help
            on_click args kwargs type disabled use_container_width).2
        = [call] := by
  refine ⟨{ label := label,
            key := "FormSubmitter:" ++ env.current_form_id ++ "-" ++ label,
            help := help, is_form_submitter := true, on_click := on_click,
            args := args, kwargs := kwargs, type := type,
            disabled := disabled, use_container_width := use_container_width,
            ctx_present := env.ctx_present },
    rfl, rfl, rfl, rfl, rfl, rfl, rfl, rfl, rfl, ?_, ?_⟩
  · simp [ModalMixin.experimental_modal_form_submit_button, if_pos h,
      ModalMixin._modal_form_submit_button]
  · simp [ModalMixin.experimental_modal_form_submit_button, if_pos h,
      ModalMixin._modal_form_submit_button, buttonRegistrations]

/-- C4 (witness): the delegation theorem applied at the concrete
environment `envA` with `type = "secondary"`, a valid type. -/
theorem experimental_modal_form_submit_button_delegates_witness :
    ∃ call : ButtonCall,
      call.label = "OK" ∧ call.help = some "tip" ∧
      call.on_click = some { id := 7 } ∧ call.args = none ∧
      call.kwargs = none ∧ call.type = "secondary" ∧
      call.disabled = false ∧ call.use_container_width = true ∧
      call.is_form_submitter = true ∧
      (ModalMixin.experimental_modal_form_submit_button envA "OK"
          (some "tip") (some { id := 7 }) none none "secondary" false true).1
        = Except.ok (envA.button_result call) ∧
      buttonRegistrations
          (ModalMixin.experimental_modal_form_submit_button envA "OK"
            (some "tip") (some { id := 7 }) none none "secondary" false true).2
        = [call] :=
  experimental_modal_form_submit_button_delegates envA "OK" (some "tip")
    (some { id := 7 }) none none "secondary" false true (Or.inr rfl)

/-- C5 (counterexample): the claim that each of the four public operations
forwards to all three collaborators fails at `close_modal`: at the
concrete environment `envA` its trace contains no call into the `form`
helper module and no call into the `DeltaGenerator`. -/
theorem close_modal_collaborators_counterexample :
    (ModalMixin.close_modal envA).2.filter ExtCall.isFormCall = [] ∧
    (ModalMixin.close_modal envA).2.filter ExtCall.isDgCall = [] := by
  constructor <;> rfl

/-- C5 (amended): `experimental_modal_form` forwards to the `form` helper
and the `DeltaGenerator` but not to the script-run context;
`experimental_modal_form_submit_button` (with its default, valid `type`)
forwards to all three collaborators; `open_modal` forwards to the
script-run context and, when a context exists, to the `form` helper, but
not to the `DeltaGenerator`; `close_modal` forwards only to the
script-run context. -/
theorem modal_ops_collaborators (env : Env) (key : String) (c : Bool)
    (label : String) :
    ((ModalMixin.experimental_modal_form env key c).2.any ExtCall.isFormCall = true ∧
     (ModalMixin.experimental_modal_form env key c).2.any ExtCall.isDgCall = true ∧
     (ModalMixin.experimental_modal_form env key c).2.any ExtCall.isCtxCall = false) ∧
    ((ModalMixin.experimental_modal_form_submit_button env label).2.any
        ExtCall.isFormCall = true ∧
     (ModalMixin.experimental_modal_form_submit_button env label).2.any
        ExtCall.isDgCall = true ∧
     (ModalMixin.experimental_modal_form_submit_button env label).2.any
        ExtCall.isCtxCall = true) ∧
    ((ModalMixin.open_modal env).2.any ExtCall.isCtxCall = true ∧
     (env.ctx_present = true →
       (ModalMixin.open_modal env).2.any ExtCall.isFormCall = true) ∧
     (ModalMixin.open_modal env).2.any ExtCall.isDgCall = false) ∧
    ((ModalMixin.close_modal env).2.any ExtCall.isCtxCall = true ∧
     (ModalMixin.close_modal env).2.any ExtCall.isFormCall = false ∧
     (ModalMixin.close_modal env).2.any ExtCall.isDgCall = false) := by
  cases h : env.ctx_present <;>
    simp [ModalMixin.experimental_modal_form,
      ModalMixin.experimental_modal_form_submit_button,
      ModalMixin._modal_form_submit_button, ModalMixin.open_modal,
      ModalMixin.close_modal, h, ExtCall.isFormCall, ExtCall.isDgCall,
      ExtCall.isCtxCall]

/-- C5 (witness): the amended theorem applied at the concrete environment
`envA`, with the inner hypothesis (the script-run context exists)
discharged. -/
theorem modal_ops_collaborators_witness :
    (ModalMixin.open_modal envA).2.any ExtCall.isFormCall = true :=
  (modal_ops_collaborators envA "my_modal" true "OK").2.2.1.2.1 rfl

/-- C6 (counterexample): the claim that per call
`experimental_modal_form_submit_button` registers exactly one button
descriptor fails when the `type` argument is invalid: at the concrete
environment `envA` with `type = "tertiary"` the call registers no button
at all. -/
theorem submit_button_invalid_type_counterexample :
    buttonRegistrations
        (ModalMixin.experimental_modal_form_submit_button envA "OK" none
          none none none "tertiary" false false).2 = [] ∧
    (buttonRegistrations
        (ModalMixin.experimental_modal_form_submit_button envA "OK" none
          none none none "tertiary" false false).2).length ≠ 1 := by
  constructor
  · rfl
  · decide

/-- C6 (amended): per call, each operation produces only the stated
outputs and nothing more: `experimental_modal_form` constructs exactly
one block descriptor, registers no button and emits no event;
`experimental_modal_form_submit_button` registers exactly one button
descriptor when `type` is valid and none when it raises, and constructs
no block and emits no event; `open_modal` and `close_modal` each emit
exactly one event when a script-run context exists and none otherwise,
and construct no block and register no button. -/
theorem modal_ops_frame (env : Env) (key : String) (c : Bool)
    (label : String) (help : Option String)
    (on_click args kwargs : Option PyObj) (type : String)
    (disabled use_container_width : Bool) :
    ((blockProtos (ModalMixin.experimental_modal_form env key c).2).length = 1 ∧
     buttonRegistrations (ModalMixin.experimental_modal_form env key c).2 = [] ∧
     enqueuedEvents (ModalMixin.experimental_modal_form env key c).2 = []) ∧
    ((type = "primary" ∨ type = "secondary" →
       (buttonRegistrations
         (ModalMixin.experimental_modal_form_submit_button env label help
           on_click args kwargs type disabled use_container_width).2).length = 1) ∧
     (¬(type = "primary" ∨ type = "secondary") →
       buttonRegistrations
         (ModalMixin.experimental_modal_form_submit_button env label help
           on_click args kwargs type disabled use_container_width).2 = []) ∧
     blockProtos
       (ModalMixin.experimental_modal_form_submit_button env label help
         on_click args kwargs type disabled use_container_width).2 = [] ∧
     enqueuedEvents
       (ModalMixin.experimental_modal_form_submit_button env label help
         on_click args kwargs type disabled use_container_width).2 = []) ∧
    ((enqueuedEvents (ModalMixin.open_modal env).2).length
        = (if env.ctx_present then 1 else 0) ∧
     blockProtos (ModalMixin.open_modal env).2 = [] ∧
     buttonRegistrations (ModalMixin.open_modal env).2 = []) ∧
    ((enqueuedEvents (ModalMixin.close_modal env).2).length
        = (if env.ctx_present then 1 else 0) ∧
     blockProtos (ModalMixin.close_modal env).2 = [] ∧
     buttonRegistrations (ModalMixin.close_modal env).2 = []) := by
  by_cases ht : type = "primary" ∨ type = "secondary" <;>
    cases h : env.ctx_present <;>
      simp [ModalMixin.experimental_modal_form,
        ModalMixin.experimental_modal_form_submit_button,
        ModalMixin._modal_form_submit_button, ModalMixin.open_modal,
        ModalMixin.close_modal, ModalMixin.build_modal_proto, h, ht,
        blockProtos, buttonRegistrations, enqueuedEvents]

/-- C6 (witness): the frame theorem applied at the concrete environment
`envA`, once with the valid type "primary" (one registration) and once
with the invalid type "tertiary" (no registration), discharging the
respective hypotheses. -/
theorem modal_ops_frame_witness :
    (buttonRegistrations
        (ModalMixin.experimental_modal_form_submit_button envA "OK" none
          none none none "primary" false false).2).length = 1 ∧
    buttonRegistrations
        (ModalMixin.experimental_modal_form_submit_button envA "OK" none
          none none none "tertiary" false false).2 = [] :=
  ⟨(modal_ops_frame envA "my_modal" false "OK" none none none none
      "primary" false false).2.1.1 (Or.inl rfl),
   (modal_ops_frame envA "my_modal" false "OK" none none none none
      "tertiary" false false).2.1.2.1 (by decide)⟩

/-- C7: in every call to `experimental_modal_form`, the single form id
returned by `form.build_form_id` is the one stored both in the returned
block's proto (`modal.form_id`) and in the `FormData` attached to the
returned block `DeltaGenerator`, and the trace is exactly the three
hand-offs to external collaborators — the mixin performs no other
interaction that could retain a copy of the id. -/
theorem experimental_modal_form_form_id_handoff (env : Env) (key : String)
    (c : Bool) :
    (ModalMixin.experimental_modal_form env key c).1.proto.modal.form_id
      = env.build_form_id key ∧
    (ModalMixin.experimental_modal_form env key c).1.form_data
      = some { form_id := env.build_form_id key } ∧
    (ModalMixin.experimental_modal_form env key c).2
      = [ExtCall.formBuildFormId key (env.build_form_id key),
         ExtCall.dgBlock
           (ModalMixin.build_modal_proto (env.build_form_id key) c),
         ExtCall.dgFormDataSet { form_id := env.build_form_id key }] :=
  ⟨rfl, rfl, rfl⟩

/-- C8: `experimental_modal_form_submit_button` raises
`StreamlitAPIException` exactly when `type` is neither "primary" nor
"secondary"; when it raises, the only external interaction performed is
fetching the script-run context, so no button is registered and no state
is changed. -/
theorem submit_button_type_check (env : Env) (label : String)
    (help : Option String) (on_click args kwargs : Option PyObj)
    (type : String) (disabled use_container_width : Bool) :
    ((ModalMixin.experimental_modal_form_submit_button env label help
        on_click args kwargs type disabled use_container_width).1.isOk
      = (type == "primary" || type == "secondary")) ∧
    (¬(type = "primary" ∨ type = "secondary") →
      (ModalMixin.experimental_modal_form_submit_button env label help
          on_click args kwargs type disabled use_container_width).1
        = Except.error
            (StreamlitAPIException.mk (ModalMixin.invalidTypeMessage type)) ∧
      (ModalMixin.experimental_modal_form_submit_button env label help
          on_click args kwargs type disabled use_container_width).2
        = [ExtCall.getScriptRunCtx env.ctx_present]) := by
  by_cases ht : type = "primary" ∨ type = "secondary"
  · refine ⟨?_, fun hc => absurd ht hc⟩
    rcases ht with ht | ht <;>
      simp [ModalMixin.experimental_modal_form_submit_button, ht,
        Except.isOk, Except.toBool]
  · have h1 : ¬type = "primary" := fun h => ht (Or.inl h)
    have h2 : ¬type = "secondary" := fun h => ht (Or.inr h)
    refine ⟨?_, fun _ => ⟨?_, ?_⟩⟩ <;>
      simp [ModalMixin.experimental_modal_form_submit_button, ht, h1, h2,
        Except.isOk, Except.toBool]

/-- C8 (witness): the type-check theorem applied at the concrete
environment `envA` with the invalid type "tertiary", discharging the
hypothesis. -/
theorem submit_button_type_check_witness :
    (ModalMixin.experimental_modal_form_submit_button envA "OK" none none
        none none "tertiary" false false).1
      = Except.error
          (StreamlitAPIException.mk (ModalMixin.invalidTypeMessage "tertiary")) ∧
    (ModalMixin.experimental_modal_form_submit_button envA "OK" none none
        none none "tertiary" false false).2
      = [ExtCall.getScriptRunCtx true] :=
  (submit_button_type_check envA "OK" none none none none "tertiary" false
    false).2 (by decide)

/-- C9: when `get_script_run_ctx()` returns `None`, `open_modal` and
`close_modal` are no-ops: each returns normally (with `()`), enqueues no
event, and performs no external interaction beyond the context lookup
itself, so all state is unchanged. -/
theorem open_close_modal_no_ctx_noop (env : Env)
    (h : env.ctx_present = false) :
    (ModalMixin.open_modal env).1 = () ∧
    (ModalMixin.open_modal env).2 = [ExtCall.getScriptRunCtx false] ∧
    enqueuedEvents (ModalMixin.open_modal env).2 = [] ∧
    (ModalMixin.close_modal env).1 = () ∧
    (ModalMixin.close_modal env).2 = [ExtCall.getScriptRunCtx false] ∧
    enqueuedEvents (ModalMixin.close_modal env).2 = [] := by
  simp [ModalMixin.open_modal, ModalMixin.close_modal, enqueuedEvents, h]

/-- C9 (witness): the no-op theorem applied at the concrete environment
`envNoCtx`, whose script-run context is absent. -/
theorem open_close_modal_no_ctx_noop_witness :
    (ModalMixin.open_modal envNoCtx).1 = () ∧
    (ModalMixin.open_modal envNoCtx).2 = [ExtCall.getScriptRunCtx false] ∧
    enqueuedEvents (ModalMixin.open_modal envNoCtx).2 = [] ∧
    (ModalMixin.close_modal envNoCtx).1 = () ∧
    (ModalMixin.close_modal envNoCtx).2 = [ExtCall.getScriptRunCtx false] ∧
    enqueuedEvents (ModalMixin.close_modal envNoCtx).2 = [] :=
  open_close_modal_no_ctx_noop envNoCtx rfl

/-- C10: the widget key of the single button registered by
`_modal_form_submit_button` is the string
`"FormSubmitter:" ++ form_id ++ "-" ++ label` where `form_id` is the
current form id; consequently any two calls with the same current form
id and the same label produce the same key, for whatever values the
remaining arguments take. -/
theorem modal_form_submit_button_key (env env2 : Env) (label : String)
    (help help2 : Option String)
    (on_click args kwargs on_click2 args2 kwargs2 : Option PyObj)
    (type type2 : String) (disabled disabled2 : Bool)
    (use_container_width use_container_width2 : Bool)
    (ctx_present ctx_present2 : Bool)
    (h : env2.current_form_id = env.current_form_id) :
    (buttonRegistrations
        (ModalMixin._modal_form_submit_button env label help on_click args
          kwargs type disabled use_container_width ctx_present).2).map
        ButtonCall.key
      = ["FormSubmitter:" ++ env.current_form_id ++ "-" ++ label] ∧
    (buttonRegistrations
        (ModalMixin._modal_form_submit_button env2 label help2 on_click2
          args2 kwargs2 type2 disabled2 use_container_width2
          ctx_present2).2).map ButtonCall.key
      = (buttonRegistrations
          (ModalMixin._modal_form_submit_button env label help on_click
            args kwargs type disabled use_container_width
            ctx_present).2).map ButtonCall.key := by
  constructor <;>
    simp [ModalMixin._modal_form_submit_button, buttonRegistrations, h]

/-- C10 (witness): the key theorem applied at two concrete environments
sharing the current form id "form-xyz" but differing elsewhere, with
different auxiliary arguments, discharging the hypothesis. -/
theorem modal_form_submit_button_key_witness :
    (buttonRegistrations
        (ModalMixin._modal_form_submit_button envA "OK" none none none
          none "secondary" false false true).2).map ButtonCall.key
      = ["FormSubmitter:form-xyz-OK"] ∧
    (buttonRegistrations
        (ModalMixin._modal_form_submit_button envNoCtx "OK" (some "tip")
          (some { id := 3 }) none none "primary" true true false).2).map
        ButtonCall.key
      = (buttonRegistrations
          (ModalMixin._modal_form_submit_button envA "OK" none none none
            none "secondary" false false true).2).map ButtonCall.key := by
  have h := modal_form_submit_button_key envA envNoCtx "OK" none
    (some "tip") none none none (some { id := 3 }) none none "secondary"
    "primary" false true false true true false rfl
  exact ⟨by simpa using h.1, h.2⟩
